import Mathlib

/-!
# QuakeSiren event-processing and risk-scoring pipeline: a shallow embedding

This file embeds the core of the QuakeSiren server in Lean 4 and proves the
specification claims about it.  Conventions of the embedding:

* JS numbers are modelled as `ℚ` (exact decimal arithmetic); instants as `ℤ`
  epoch milliseconds; day strings (`yyyy-MM-dd`) as `String`, with calendar
  rendering of an instant abstracted as an explicit `formatDay : ℤ → String`
  parameter where the source calls `date-fns` `format`.
* The haversine location scoring uses real trigonometric functions, so the
  location-dependent part of the risk model lives over `ℝ`.
* Module-level mutable `Map`s become association lists threaded through the
  functions as explicit state; `Map.get`/`Map.set` become `lookup`/`mapSet`.
* `Math.random()` becomes an injected stream `rng : ℕ → ℚ` with a cursor,
  and generated identifiers an injected stream `freshIds : ℕ → String`.
* JS `Math.round` (round half up) is `jsRound`; `Number.toFixed(4)` followed
  by `parseFloat` is `toFixed4` (ties away from zero, exact over `ℚ`).
-/

namespace QuakeSiren

/-- JS `Math.round` over `ℚ`: round half toward positive infinity. -/
def jsRound (q : ℚ) : ℤ := ⌊q + 1/2⌋

/-- JS `Math.round` over `ℝ` (used where the haversine location score flows
into the overall market impact score). -/
noncomputable def jsRoundR (x : ℝ) : ℤ := ⌊x + 1/2⌋

/-- JS `x.toFixed(4)` re-parsed by `parseFloat`: round to four decimal
places, ties away from zero. -/
def toFixed4 (q : ℚ) : ℚ :=
  if q < 0 then -(((⌊-q * 10000 + 1/2⌋ : ℤ) : ℚ) / 10000)
  else ((⌊q * 10000 + 1/2⌋ : ℤ) : ℚ) / 10000

/-- JS `Map.get`, for a map modelled as an association list. -/
def lookup {α : Type} (m : List (String × α)) (k : String) : Option α :=
  (m.find? (fun kv => kv.1 == k)).map (fun kv => kv.2)

/-- JS `Map.set`: replace the value of an existing key in place, otherwise
append the new entry. -/
def mapSet {α : Type} (m : List (String × α)) (k : String) (v : α) :
    List (String × α) :=
  if (lookup m k).isSome then
    m.map (fun kv => if kv.1 == k then (kv.1, v) else kv)
  else m ++ [(k, v)]

/-- `parseFloat` restricted to the plain decimal numerals the code feeds it
(an optional minus sign, digits, an optional fraction). -/
def parseDecimalQ (s : String) : ℚ :=
  let neg := s.startsWith "-"
  let body := if neg then s.drop 1 else s
  let parts := body.splitOn "."
  let intPart : ℕ := (parts.getD 0 "").foldl (fun acc c => acc * 10 + (c.toNat - 48)) 0
  let fracStr := parts.getD 1 ""
  let fracPart : ℕ := fracStr.foldl (fun acc c => acc * 10 + (c.toNat - 48)) 0
  let q : ℚ := (intPart : ℚ) + (fracPart : ℚ) / ((10 : ℚ) ^ fracStr.length)
  if neg then -q else q

/-! ## Data model (shared/schema.ts and the oracle service) -/

/-- `InsertEarthquake` of `shared/schema.ts`: an earthquake record before the
store assigns `id`/`createdAt`.  `flareVerified` is the extra flag the Flare
verification path spreads onto stored records. -/
structure InsertEarthquake where
  place : String
  magnitude : ℚ
  depth : ℚ
  latitude : ℚ
  longitude : ℚ
  time : ℤ
  flareNetworkId : Option String
  verified : Bool
  source : String
  url : Option String
  tsunami : Bool
  flareVerified : Bool
  deriving DecidableEq, Repr

/-- A stored `Earthquake` record. -/
structure Earthquake extends InsertEarthquake where
  id : String
  createdAt : ℤ
  deriving DecidableEq, Repr

/-- `InsertAlert` of `shared/schema.ts`. -/
structure InsertAlert where
  message : String
  severity : String
  magnitude : ℚ
  location : String
  earthquakeId : String
  timestamp : ℤ
  active : Bool
  deriving DecidableEq, Repr

/-- A stored `Alert` record. -/
structure Alert extends InsertAlert where
  id : ℤ
  deriving DecidableEq, Repr

/-- Risk level enum of the financial impact oracle. -/
inductive RiskLevel where
  | LOW
  | MEDIUM
  | HIGH
  | CRITICAL
  deriving DecidableEq, Repr

/-- The string value of a `RiskLevel` (the TS enum is string-valued). -/
def RiskLevel.toText : RiskLevel → String
  | .LOW => "LOW"
  | .MEDIUM => "MEDIUM"
  | .HIGH => "HIGH"
  | .CRITICAL => "CRITICAL"

/-- Position of a `RiskLevel` in the order LOW < MEDIUM < HIGH < CRITICAL. -/
def RiskLevel.rank : RiskLevel → ℕ
  | .LOW => 0
  | .MEDIUM => 1
  | .HIGH => 2
  | .CRITICAL => 3

/-- `FinancialImpactData` of the oracle service. -/
structure FinancialImpactData where
  earthquakeId : String
  timestamp : ℤ
  marketImpactScore : ℤ
  volatilityIndex : ℤ
  affectedMarkets : List String
  affectedCurrencies : List String
  riskLevel : RiskLevel
  marketSpecificScores : List (String × ℤ)
  summary : String
  recommendations : List String
  deriving DecidableEq, Repr

/-- `OracleSubscription` of the oracle service. -/
structure OracleSubscription where
  id : ℤ
  apiKey : String
  subscriber : String
  organizationName : String
  contactEmail : String
  startDate : ℤ
  endDate : ℤ
  active : Bool
  remainingRequests : ℤ
  lastRequestDate : Option ℤ
  deriving DecidableEq, Repr

/-- `ApiKeyValidation` of the oracle service. -/
structure ApiKeyValidation where
  valid : Bool
  subscriberId : Option String
  subscriptionId : Option ℤ
  organization : Option String
  remainingRequests : Option ℤ
  expiresAt : Option ℤ
  deriving DecidableEq, Repr

/-- The module-level mutable state of the oracle service: the per-earthquake
financial impact cache, plus the injected randomness stream with its cursor
and the wall clock read by `new Date()`. -/
structure OracleState where
  financialImpactCache : List (String × FinancialImpactData)
  rng : ℕ → ℚ
  rngIdx : ℕ
  now : ℤ

/-! ## Risk scoring model (oracle service helper functions) -/

/-- `calculateMagnitudeImpact` of the oracle service. -/
def calculateMagnitudeImpact (magnitude : ℚ) : ℚ :=
  if magnitude < 5 then magnitude * 5
  else if magnitude < 6 then 25 + (magnitude - 5) * 20
  else if magnitude < 7 then 45 + (magnitude - 6) * 25
  else 70 + min 30 ((magnitude - 7) * 15)

/-- `calculateDepthImpact` of the oracle service. -/
def calculateDepthImpact (depth : ℚ) : ℚ :=
  if depth < 10 then 80 + max 0 (10 - depth) * 2
  else if depth < 30 then 60 + max 0 (30 - depth)
  else if depth < 70 then 40 + max 0 (70 - depth) / 2
  else max 10 (100 - depth)

/-- `deg2rad` of the oracle service. -/
noncomputable def deg2rad (deg : ℝ) : ℝ := deg * (Real.pi / 180)

open Classical in
/-- JS `Math.atan2`. -/
noncomputable def atan2 (y x : ℝ) : ℝ :=
  if 0 < x then Real.arctan (y / x)
  else if x < 0 ∧ 0 ≤ y then Real.arctan (y / x) + Real.pi
  else if x < 0 ∧ y < 0 then Real.arctan (y / x) - Real.pi
  else if x = 0 ∧ 0 < y then Real.pi / 2
  else if x = 0 ∧ y < 0 then -(Real.pi / 2)
  else 0

/-- The haversine distance computed inside `isLocationNearRegion` (Earth
radius 6371 km). -/
noncomputable def haversineDistance (lat1 lon1 lat2 lon2 : ℝ) : ℝ :=
  let dLat := deg2rad (lat2 - lat1)
  let dLon := deg2rad (lon2 - lon1)
  let a := Real.sin (dLat / 2) * Real.sin (dLat / 2) +
    Real.cos (deg2rad lat1) * Real.cos (deg2rad lat2) *
    Real.sin (dLon / 2) * Real.sin (dLon / 2)
  let c := 2 * atan2 (Real.sqrt a) (Real.sqrt (1 - a))
  6371 * c

/-- `isLocationNearRegion` of the oracle service. -/
def isLocationNearRegion (lat1 lon1 lat2 lon2 radius : ℚ) : Prop :=
  haversineDistance (lat1 : ℝ) (lon1 : ℝ) (lat2 : ℝ) (lon2 : ℝ) ≤ (radius : ℝ)

open Classical in
/-- `calculateLocationImpact` of the oracle service. -/
noncomputable def calculateLocationImpact (latitude longitude : ℚ) : ℝ :=
  if isLocationNearRegion latitude longitude 35.6762 139.6503 500 then 90
  else if isLocationNearRegion latitude longitude 37.7749 (-122.4194) 300 then 85
  else if isLocationNearRegion latitude longitude 40.7128 (-74.0060) 300 then 90
  else if isLocationNearRegion latitude longitude 51.5074 (-0.1278) 300 then 85
  else if isLocationNearRegion latitude longitude 22.3193 114.1694 300 then 90
  else if isLocationNearRegion latitude longitude 1.3521 103.8198 300 then 80
  else 30

/-- The overall market impact score computed inline by
`generateFinancialImpactData`:
`Math.min(100, Math.round(magnitudeImpact * 0.5 + depthImpact * 0.2 + locationImpact * 0.3))`. -/
noncomputable def marketImpactScoreOf (magnitude depth latitude longitude : ℚ) : ℤ :=
  min 100 (jsRoundR ((calculateMagnitudeImpact magnitude : ℝ) * 0.5 +
    (calculateDepthImpact depth : ℝ) * 0.2 +
    calculateLocationImpact latitude longitude * 0.3))

/-- The risk level derived from the market impact score by
`generateFinancialImpactData` (also repeated in the oracle routes). -/
def riskLevelOf (marketImpactScore : ℤ) : RiskLevel :=
  if marketImpactScore < 30 then .LOW
  else if marketImpactScore < 60 then .MEDIUM
  else if marketImpactScore < 85 then .HIGH
  else .CRITICAL

open Classical in
/-- `getAffectedMarketsAndCurrencies` of the oracle service. -/
noncomputable def getAffectedMarketsAndCurrencies (latitude longitude : ℚ) :
    List String × List String :=
  let japan := isLocationNearRegion latitude longitude 35.6762 139.6503 800
  let usWest := isLocationNearRegion latitude longitude 37.7749 (-122.4194) 800
  let australia := isLocationNearRegion latitude longitude (-33.8688) 151.2093 800
  let china := isLocationNearRegion latitude longitude 31.2304 121.4737 800
  let affectedMarkets :=
    (if japan then ["NIKKEI", "JPX"] else []) ++
    (if usWest then ["NASDAQ", "NYSE", "SP500"] else []) ++
    (if australia then ["ASX200"] else []) ++
    (if china then ["SSE", "SZSE"] else [])
  let affectedCurrencies :=
    (if japan then ["JPY"] else []) ++
    (if usWest then ["USD"] else []) ++
    (if australia then ["AUD"] else []) ++
    (if china then ["CNY"] else [])
  if affectedMarkets.isEmpty then (["GLOBAL_MARKETS"], ["USD", "EUR"])
  else (affectedMarkets, affectedCurrencies)

/-- `generateRecommendations` of the oracle service. -/
def generateRecommendations (riskLevel : RiskLevel)
    (affectedMarkets affectedCurrencies : List String) : List String :=
  match riskLevel with
  | .LOW =>
    ["Monitor situation for potential supply chain disruptions in affected regions.",
     "No immediate market action required, continue normal operations."]
  | .MEDIUM =>
    ["Monitor " ++ String.intercalate ", " affectedMarkets ++
       " for increased volatility in the next 24-48 hours.",
     "Consider hedging exposure to " ++ String.intercalate ", " affectedCurrencies ++
       " in the short term.",
     "Review supply chain resilience in affected regions."]
  | .HIGH =>
    ["Anticipate significant volatility in " ++ String.intercalate ", " affectedMarkets ++
       " for 3-5 days.",
     "Implement hedging strategies for " ++ String.intercalate ", " affectedCurrencies ++
       " positions.",
     "Activate business continuity plans for operations in affected regions.",
     "Consider temporary portfolio reallocation to reduce risk exposure."]
  | .CRITICAL =>
    ["Immediate action required to mitigate exposure to " ++
       String.intercalate ", " affectedMarkets ++ ".",
     "Implement maximum hedging for " ++ String.intercalate ", " affectedCurrencies ++
       " positions.",
     "Activate emergency business continuity protocols.",
     "Prepare for potential market circuit breakers and trading halts.",
     "Set up crisis management team to monitor developments."]

/-- `generateSummary` of the oracle service (JS numeral rendering is
abstracted by `toString`). -/
def generateSummary (earthquake : Earthquake) (riskLevel : RiskLevel)
    (marketImpactScore volatilityIndex : ℤ) : String :=
  riskLevel.toText ++ " financial impact risk from M" ++ toString earthquake.magnitude ++
    " earthquake near " ++ earthquake.place ++ ". Market impact score: " ++
    toString marketImpactScore ++ "/100, Expected volatility index: " ++
    toString volatilityIndex ++
    "/100. Monitor markets for potential disruptions and implement appropriate risk management strategies."

/-- One draw from the injected `Math.random()` stream. -/
def nextRandom (s : OracleState) : ℚ × OracleState :=
  (s.rng s.rngIdx, { s with rngIdx := s.rngIdx + 1 })

/-- The `affectedMarkets.forEach` loop of `generateFinancialImpactData`
filling `marketSpecificScores`, one `Math.random()` draw per market. -/
def computeMarketScores (affectedMarkets : List String) (marketImpactScore : ℤ)
    (s : OracleState) : List (String × ℤ) × OracleState :=
  match affectedMarkets with
  | [] => ([], s)
  | market :: rest =>
    let rs := nextRandom s
    let score : ℤ := min 100 (jsRound ((marketImpactScore : ℚ) * (7/10 + rs.1 * (5/10))))
    let tail := computeMarketScores rest marketImpactScore rs.2
    ((market, score) :: tail.1, tail.2)

/-- `generateFinancialImpactData` of the oracle service: return the cached
assessment when one exists, otherwise compute one and cache it. -/
noncomputable def generateFinancialImpactData (earthquake : Earthquake)
    (s : OracleState) : FinancialImpactData × OracleState :=
  match lookup s.financialImpactCache earthquake.id with
  | some cached => (cached, s)
  | none =>
    let marketImpactScore := marketImpactScoreOf earthquake.magnitude earthquake.depth
      earthquake.latitude earthquake.longitude
    let riskLevel := riskLevelOf marketImpactScore
    let mc := getAffectedMarketsAndCurrencies earthquake.latitude earthquake.longitude
    let rs := nextRandom s
    let volatilityIndex : ℤ := min 100 (jsRound ((marketImpactScore : ℚ) * (8/10) + rs.1 * 20))
    let ms := computeMarketScores mc.1 marketImpactScore rs.2
    let recommendations := generateRecommendations riskLevel mc.1 mc.2
    let summary := generateSummary earthquake riskLevel marketImpactScore volatilityIndex
    let impactData : FinancialImpactData :=
      { earthquakeId := earthquake.id
        timestamp := ms.2.now
        marketImpactScore := marketImpactScore
        volatilityIndex := volatilityIndex
        affectedMarkets := mc.1
        affectedCurrencies := mc.2
        riskLevel := riskLevel
        marketSpecificScores := ms.1
        summary := summary
        recommendations := recommendations }
    (impactData,
      { ms.2 with financialImpactCache := mapSet ms.2.financialImpactCache earthquake.id impactData })

/-! ## API key subscription layer (oracle service and oracle routes) -/

/-- `validateApiKey` of the oracle service: a read-only check of the key
table against the wall clock. -/
def validateApiKey (apiKeys : List (String × OracleSubscription)) (now : ℤ)
    (apiKey : String) : ApiKeyValidation :=
  match lookup apiKeys apiKey with
  | none =>
    { valid := false, subscriberId := none, subscriptionId := none,
      organization := none, remainingRequests := none, expiresAt := none }
  | some subscription =>
    if !subscription.active || decide (subscription.endDate < now) then
      { valid := false, subscriberId := none, subscriptionId := none,
        organization := none, remainingRequests := none, expiresAt := none }
    else if decide (subscription.remainingRequests ≤ 0) then
      { valid := false, subscriberId := none, subscriptionId := none,
        organization := none, remainingRequests := none, expiresAt := none }
    else
      { valid := true
        subscriberId := some subscription.subscriber
        subscriptionId := some subscription.id
        organization := some subscription.organizationName
        remainingRequests := some subscription.remainingRequests
        expiresAt := some subscription.endDate }

/-- `createApiKey` of the oracle service.  The randomly generated key is the
injected `freshKey`; `endDate.setDate(getDate() + durationDays)` is modelled
as adding `durationDays` fixed-length days. -/
def createApiKey (apiKeys : List (String × OracleSubscription)) (now : ℤ)
    (freshKey : String) (subscriber organizationName contactEmail : String)
    (durationDays requestLimit : ℤ) :
    (String × OracleSubscription) × List (String × OracleSubscription) :=
  let endDate := now + durationDays * 24 * 60 * 60 * 1000
  let subscription : OracleSubscription :=
    { id := (apiKeys.length : ℤ) + 1
      apiKey := freshKey
      subscriber := subscriber
      organizationName := organizationName
      contactEmail := contactEmail
      startDate := now
      endDate := endDate
      active := true
      remainingRequests := requestLimit
      lastRequestDate := none }
  ((freshKey, subscription), mapSet apiKeys freshKey subscription)

/-- `recordApiRequest` of the oracle service: decrement the remaining budget
of the key, or throw when the key is unknown. -/
def recordApiRequest (apiKeys : List (String × OracleSubscription)) (now : ℤ)
    (apiKey : String) :
    Except String (ℤ × List (String × OracleSubscription)) :=
  match lookup apiKeys apiKey with
  | none => Except.error "Invalid API key"
  | some subscription =>
    let updated := { subscription with
      remainingRequests := subscription.remainingRequests - 1
      lastRequestDate := some now }
    Except.ok (updated.remainingRequests, mapSet apiKeys apiKey updated)

/-- The error codes the `verifyApiKey` middleware can answer with. -/
inductive ApiErrorCode where
  | missingApiKey
  | invalidApiKey
  | requestRecordingFailed
  deriving DecidableEq, Repr

/-- The `verifyApiKey` middleware of the oracle routes: validate the
`x-api-key` header, then record (consume) one request. -/
def verifyApiKey (apiKeys : List (String × OracleSubscription)) (now : ℤ)
    (header : Option String) :
    Except ApiErrorCode (ApiKeyValidation × ℤ) × List (String × OracleSubscription) :=
  match header with
  | none => (Except.error ApiErrorCode.missingApiKey, apiKeys)
  | some apiKey =>
    let validation := validateApiKey apiKeys now apiKey
    if validation.valid = false then (Except.error ApiErrorCode.invalidApiKey, apiKeys)
    else
      match recordApiRequest apiKeys now apiKey with
      | Except.error _ => (Except.error ApiErrorCode.requestRecordingFailed, apiKeys)
      | Except.ok (remaining, apiKeys') => (Except.ok (validation, remaining), apiKeys')

/-- Run the `verifyApiKey` middleware `n` times in sequence with the same
header, collecting each call's outcome (the remaining budget on success). -/
def runGate : ℕ → List (String × OracleSubscription) → ℤ → Option String →
    List (Except ApiErrorCode ℤ) × List (String × OracleSubscription)
  | 0, apiKeys, _, _ => ([], apiKeys)
  | n + 1, apiKeys, now, header =>
    let step := verifyApiKey apiKeys now header
    let rest := runGate n step.2 now header
    ((step.1.map (fun p => p.2)) :: rest.1, rest.2)

/-! ## Event store (server/storage.ts, MemStorage) -/

/-- `EarthquakeFilters` of `shared/schema.ts`. -/
structure EarthquakeFilters where
  timeRange : String
  magnitude : String
  region : String
  deriving DecidableEq, Repr

/-- The in-memory store (`MemStorage`) plus the ambient clock `Date.now()`
and the injected stream of randomly generated earthquake ids. -/
structure StorageState where
  earthquakes : List Earthquake
  alerts : List Alert
  alertIdCtr : ℤ
  now : ℤ
  freshIds : ℕ → String
  idCtr : ℕ

/-- The time-range switch of `MemStorage.getEarthquakes`: any unrecognized
value (including `custom`) falls to the default 24-hour window. -/
def timeFilterOf (timeRange : String) : ℤ :=
  if timeRange == "7d" then 7 * 24 * 60 * 60 * 1000
  else if timeRange == "30d" then 30 * 24 * 60 * 60 * 1000
  else if timeRange == "1y" then 365 * 24 * 60 * 60 * 1000
  else 24 * 60 * 60 * 1000

/-- The region switch of `MemStorage.getEarthquakes`; `global` (and any
unrecognized region) does not filter. -/
def applyRegionFilter (region : String) (earthquakes : List Earthquake) :
    List Earthquake :=
  if region == "global" then earthquakes
  else if region == "north_america" then
    earthquakes.filter (fun quake => decide (15 ≤ quake.latitude ∧ quake.latitude ≤ 90 ∧
      -170 ≤ quake.longitude ∧ quake.longitude ≤ -30))
  else if region == "south_america" then
    earthquakes.filter (fun quake => decide (-60 ≤ quake.latitude ∧ quake.latitude ≤ 15 ∧
      -90 ≤ quake.longitude ∧ quake.longitude ≤ -30))
  else if region == "europe" then
    earthquakes.filter (fun quake => decide (35 ≤ quake.latitude ∧ quake.latitude ≤ 75 ∧
      -25 ≤ quake.longitude ∧ quake.longitude ≤ 45))
  else if region == "asia" then
    earthquakes.filter (fun quake => decide (0 ≤ quake.latitude ∧ quake.latitude ≤ 80 ∧
      45 ≤ quake.longitude ∧ quake.longitude ≤ 180))
  else if region == "africa" then
    earthquakes.filter (fun quake => decide (-40 ≤ quake.latitude ∧ quake.latitude ≤ 40 ∧
      -20 ≤ quake.longitude ∧ quake.longitude ≤ 55))
  else if region == "australia" then
    earthquakes.filter (fun quake => decide (-50 ≤ quake.latitude ∧ quake.latitude ≤ -10 ∧
      110 ≤ quake.longitude ∧ quake.longitude ≤ 180))
  else earthquakes

/-- One step of the stable sort modelling the JS
`sort((a, b) => b.time - a.time)` call: insert an element into an
already-sorted (descending by time) list. -/
def insertByTimeDesc (a : Earthquake) : List Earthquake → List Earthquake
  | [] => [a]
  | b :: t => if decide (b.time ≤ a.time) then a :: b :: t else b :: insertByTimeDesc a t

/-- The JS `sort((a, b) => b.time - a.time)` (stable, descending by time),
modelled as a stable insertion sort. -/
def sortByTimeDesc : List Earthquake → List Earthquake
  | [] => []
  | a :: t => insertByTimeDesc a (sortByTimeDesc t)

/-- `MemStorage.getEarthquakes`: time window, magnitude and region filters,
then sort by time, most recent first. -/
def getEarthquakes (st : StorageState) (filters : EarthquakeFilters) :
    List Earthquake :=
  let timeFilter := timeFilterOf filters.timeRange
  let afterTime := st.earthquakes.filter (fun quake => decide (st.now - quake.time ≤ timeFilter))
  let afterMagnitude :=
    if filters.magnitude == "all" then afterTime
    else afterTime.filter (fun quake => decide (parseDecimalQ filters.magnitude ≤ quake.magnitude))
  let afterRegion := applyRegionFilter filters.region afterMagnitude
  sortByTimeDesc afterRegion

/-- `MemStorage.createEarthquake`: assign the next generated id and the
creation instant, and append to the store. -/
def createEarthquake (st : StorageState) (insertEarthquake : InsertEarthquake) :
    Earthquake × StorageState :=
  let earthquake : Earthquake :=
    { toInsertEarthquake := insertEarthquake
      id := st.freshIds st.idCtr
      createdAt := st.now }
  (earthquake,
    { st with earthquakes := st.earthquakes ++ [earthquake], idCtr := st.idCtr + 1 })

/-- `MemStorage.createAlert`: assign the next counter id and store. -/
def createAlert (st : StorageState) (insertAlert : InsertAlert) :
    Alert × StorageState :=
  let alert : Alert := { toInsertAlert := insertAlert, id := st.alertIdCtr }
  (alert, { st with alerts := st.alerts ++ [alert], alertIdCtr := st.alertIdCtr + 1 })

/-- The storage effect of `verifyEarthquakeData` (flareNetwork.ts): look the
earthquake up and re-store it with `flareVerified` set. -/
def verifyEarthquakeDataStep (st : StorageState) (earthquakeId : String) :
    StorageState :=
  match st.earthquakes.find? (fun q => q.id == earthquakeId) with
  | none => st
  | some earthquake =>
    { st with earthquakes := st.earthquakes.map (fun q =>
        if q.id == earthquakeId then { earthquake with flareVerified := true } else q) }

/-! ## Ingestion, dedup and alert classification (server/earthquakeService.ts) -/

/-- Whether an existing stored event makes the candidate a duplicate: exact
place equality, magnitude within 0.1 and time within five minutes. -/
def isDuplicateOf (existing : Earthquake) (quakeData : InsertEarthquake) : Bool :=
  existing.place == quakeData.place &&
  decide (|existing.magnitude - quakeData.magnitude| < 1/10) &&
  decide (|existing.time - quakeData.time| < 1000 * 60 * 5)

/-- The body of the `processNewEarthquakes` loop for one candidate record:
query the current 24-hour window, drop the candidate if a stored event
duplicates it, otherwise persist it, raise an alert for magnitude ≥ 4.0 and
submit magnitude ≥ 5.0 events for Flare verification. -/
def processOneEarthquake (st : StorageState) (quakeData : InsertEarthquake) :
    List Earthquake × StorageState :=
  let existingEarthquakes := getEarthquakes st
    { timeRange := "24h", magnitude := "all", region := "global" }
  if existingEarthquakes.any (fun existing => isDuplicateOf existing quakeData) then
    ([], st)
  else
    let created := createEarthquake st quakeData
    let earthquake := created.1
    let st1 := created.2
    let st2 :=
      if 4 ≤ quakeData.magnitude then
        (createAlert st1
          { message := if 6 ≤ quakeData.magnitude then "Major Earthquake Warning"
              else "Moderate Earthquake Alert"
            severity := if 6 ≤ quakeData.magnitude then "high" else "medium"
            magnitude := quakeData.magnitude
            location := quakeData.place
            earthquakeId := earthquake.id
            timestamp := st1.now
            active := true }).2
      else st1
    let st3 :=
      if 5 ≤ quakeData.magnitude then verifyEarthquakeDataStep st2 earthquake.id
      else st2
    ([earthquake], st3)

/-- `processNewEarthquakes`: fold the per-candidate step over the batch,
collecting the newly admitted events. -/
def processNewEarthquakes (st : StorageState) (earthquakes : List InsertEarthquake) :
    List Earthquake × StorageState :=
  earthquakes.foldl (fun acc quakeData =>
    let step := processOneEarthquake acc.2 quakeData
    (acc.1 ++ step.1, step.2)) ([], st)

/-! ## Raw feed parsing (server/earthquakeService.ts, parseEarthquakeData) -/

/-- The `geometry` member of a raw feed feature; its `coordinates` are
longitude, latitude, depth. -/
structure RawGeometry where
  coordinates : ℚ × ℚ × ℚ
  deriving DecidableEq, Repr

/-- The `properties` member of a raw feed feature. -/
structure RawProperties where
  place : String
  mag : ℚ
  time : ℤ
  url : Option String
  tsunami : ℤ
  deriving DecidableEq, Repr

/-- A raw feed feature.  A malformed record is one whose `properties` or
`geometry` member is missing, which is what makes the destructuring in
`parseEarthquakeData` throw. -/
structure RawFeature where
  properties : Option RawProperties
  geometry : Option RawGeometry
  id : Option String
  deriving DecidableEq, Repr

/-- The per-feature body of the `map` inside `parseEarthquakeData`; `none`
models the member access throwing on a malformed feature. -/
def parseFeature (feature : RawFeature) : Option InsertEarthquake :=
  match feature.geometry, feature.properties with
  | some geometry, some properties =>
    some
      { place := properties.place
        magnitude := properties.mag
        depth := geometry.coordinates.2.2
        latitude := geometry.coordinates.2.1
        longitude := geometry.coordinates.1
        time := properties.time
        flareNetworkId := none
        verified := false
        source := "USGS"
        url := properties.url
        tsunami := properties.tsunami == 1
        flareVerified := false }
  | _, _ => none

/-- The `features.map` of `parseEarthquakeData` as a whole: it succeeds only
when every feature parses, since a throw anywhere escapes the `map`. -/
def parseAllFeatures : List RawFeature → Option (List InsertEarthquake)
  | [] => some []
  | feature :: rest =>
    match parseFeature feature, parseAllFeatures rest with
    | some parsed, some restParsed => some (parsed :: restParsed)
    | _, _ => none

/-- `parseEarthquakeData`: the whole `features.map` runs inside one
`try`/`catch`, so a throwing feature makes the function return the empty
batch. -/
def parseEarthquakeData (features : List RawFeature) : List InsertEarthquake :=
  match parseAllFeatures features with
  | some parsed => parsed
  | none => []

/-! ## Exchange-rate correlation overlay (server/exchangeRateService.ts) -/

/-- The earthquake annotation attached to an `ExchangeRateData` sample. -/
structure EarthquakeRef where
  id : String
  magnitude : ℚ
  place : String
  deriving DecidableEq, Repr

/-- `ExchangeRateData`: one sample of the day-level rate series. -/
structure ExchangeRateData where
  date : String
  rate : ℚ
  earthquake : Option EarthquakeRef
  deriving DecidableEq, Repr

instance : Inhabited ExchangeRateData := ⟨{ date := "", rate := 0, earthquake := none }⟩

/-- `CurrencyPair` of the exchange rate service. -/
structure CurrencyPair where
  base : String
  quote : String
  name : String
  deriving DecidableEq, Repr

/-- The body of the per-quake loop in `enrichExchangeRateDataWithEarthquakes`:
find the sample dated like the quake, scale its rate by the severity-graded
impact (negative direction for a USD base), annotate it, and apply 40% of the
impact to the next sample when there is one. -/
def applyQuakeImpact (formatDay : ℤ → String) (currencyPair : CurrencyPair)
    (result : List ExchangeRateData) (quake : Earthquake) : List ExchangeRateData :=
  let quakeDate := formatDay quake.time
  match result.findIdx? (fun r => r.date == quakeDate) with
  | none => result
  | some matchingRateIndex =>
    let impactMagnitude : ℚ :=
      if 7 ≤ quake.magnitude then 2/100
      else if 6 ≤ quake.magnitude then 1/100
      else 5/1000
    let impactDirection : ℚ := if currencyPair.base == "USD" then -1 else 1
    let matched := result.getD matchingRateIndex default
    let result1 := result.set matchingRateIndex
      { matched with
        rate := toFixed4 (matched.rate * (1 + impactDirection * impactMagnitude))
        earthquake := some { id := quake.id, magnitude := quake.magnitude, place := quake.place } }
    if matchingRateIndex + 1 < result1.length then
      let aftershockImpact := impactMagnitude * (4/10)
      let next := result1.getD (matchingRateIndex + 1) default
      result1.set (matchingRateIndex + 1)
        { next with rate := toFixed4 (next.rate * (1 + impactDirection * aftershockImpact)) }
    else result1

/-- `enrichExchangeRateDataWithEarthquakes`: apply each significant
(magnitude ≥ 5.0) earthquake to the rate series in event order. -/
def enrichExchangeRateDataWithEarthquakes (formatDay : ℤ → String)
    (exchangeRates : List ExchangeRateData) (earthquakes : List Earthquake)
    (currencyPair : CurrencyPair) : List ExchangeRateData :=
  let significantQuakes := earthquakes.filter (fun eq => decide (5 ≤ eq.magnitude))
  significantQuakes.foldl (fun result quake =>
    applyQuakeImpact formatDay currencyPair result quake) exchangeRates

/-! ## Oracle read paths (oracle service) -/

/-- `getFinancialImpactForEarthquake`: cache first, then the store, then
compute-and-cache. -/
noncomputable def getFinancialImpactForEarthquake (earthquakeId : String)
    (store : List Earthquake) (s : OracleState) :
    Option FinancialImpactData × OracleState :=
  match lookup s.financialImpactCache earthquakeId with
  | some cached => (some cached, s)
  | none =>
    match store.find? (fun q => q.id == earthquakeId) with
    | none => (none, s)
    | some earthquake =>
      let res := generateFinancialImpactData earthquake s
      (some res.1, res.2)

/-- The stateful `map` of `getEarthquakesWithFinancialImpact` attaching an
assessment to each earthquake. -/
noncomputable def mapWithFinancialImpact (os : OracleState) :
    List Earthquake → List (Earthquake × FinancialImpactData) × OracleState
  | [] => ([], os)
  | q :: rest =>
    let res := generateFinancialImpactData q os
    let tail := mapWithFinancialImpact res.2 rest
    ((q, res.1) :: tail.1, tail.2)

/-- `getEarthquakesWithFinancialImpact`: query storage with
`timeRange: 'custom'` (which `getEarthquakes` treats as the default 24-hour
window), filter by the requested range, and attach assessments. -/
noncomputable def getEarthquakesWithFinancialImpact (startTime endTime : ℤ)
    (st : StorageState) (os : OracleState) :
    List (Earthquake × FinancialImpactData) × OracleState :=
  let earthquakes := getEarthquakes st
    { timeRange := "custom", magnitude := "all", region := "global" }
  let filteredEarthquakes := earthquakes.filter (fun quake =>
    decide (startTime ≤ quake.time ∧ quake.time ≤ endTime))
  mapWithFinancialImpact os filteredEarthquakes

/-! ## Association list lemmas -/

lemma lookup_nil {α : Type} (k : String) : lookup ([] : List (String × α)) k = none := rfl

lemma lookup_cons {α : Type} (kv : String × α) (t : List (String × α)) (k : String) :
    lookup (kv :: t) k = if kv.1 == k then some kv.2 else lookup t k := by
  by_cases h : kv.1 == k <;> simp [lookup, List.find?_cons, h]

lemma lookup_replace {α : Type} (m : List (String × α)) (k : String) (v : α)
    (h : (lookup m k).isSome) :
    lookup (m.map (fun kv => if kv.1 == k then (kv.1, v) else kv)) k = some v := by
  induction m with
  | nil => simp [lookup] at h
  | cons kv t ih =>
    rw [List.map_cons]
    by_cases hk : (kv.1 == k) = true
    · have hhd : (if kv.1 == k then (kv.1, v) else kv) = (kv.1, v) := by rw [if_pos hk]
      rw [hhd, lookup_cons, if_pos hk]
    · have hhd : (if kv.1 == k then (kv.1, v) else kv) = kv := by rw [if_neg hk]
      rw [lookup_cons, if_neg hk] at h
      rw [hhd, lookup_cons, if_neg hk]
      exact ih h

lemma lookup_append_single {α : Type} (m : List (String × α)) (k : String) (v : α)
    (h : lookup m k = none) : lookup (m ++ [(k, v)]) k = some v := by
  induction m with
  | nil => simp [lookup]
  | cons kv t ih =>
    rw [lookup_cons] at h
    by_cases hk : kv.1 == k
    · simp [hk] at h
    · simp only [hk, if_neg] at h
      simpa [lookup_cons, hk] using ih h

lemma lookup_mapSet_self {α : Type} (m : List (String × α)) (k : String) (v : α) :
    lookup (mapSet m k v) k = some v := by
  unfold mapSet
  split
  · exact lookup_replace m k v (by assumption)
  · refine lookup_append_single m k v ?none
    rename_i h
    cases hl : lookup m k with
    | none => rfl
    | some w => rw [hl] at h; simp at h

lemma mem_mapSet {α : Type} {m : List (String × α)} {k : String} {v : α}
    {a : String × α} (ha : a ∈ mapSet m k v) : a ∈ m ∨ a.2 = v := by
  unfold mapSet at ha
  split at ha
  · rcases List.mem_map.mp ha with ⟨kv, hkv, hfa⟩
    by_cases h : kv.1 == k
    · right; rw [← hfa]; simp [h]
    · left; rw [← hfa]; simpa [h] using hkv
  · rcases List.mem_append.mp ha with h | h
    · exact Or.inl h
    · right; simp only [List.mem_singleton] at h; rw [h]

/-! ## Cache behavior of the risk scoring engine -/

/-- After any call, the cache holds the returned assessment under the
event's identity. -/
lemma generateFinancialImpactData_cached (e : Earthquake) (s : OracleState) :
    lookup (generateFinancialImpactData e s).2.financialImpactCache e.id =
      some (generateFinancialImpactData e s).1 := by
  cases h : lookup s.financialImpactCache e.id with
  | some cached => simp [generateFinancialImpactData, h]
  | none => simp [generateFinancialImpactData, h, lookup_mapSet_self]

/-- A cache hit returns the cached assessment and leaves the state as is. -/
lemma generateFinancialImpactData_hit (e : Earthquake) (s : OracleState)
    (d : FinancialImpactData) (h : lookup s.financialImpactCache e.id = some d) :
    generateFinancialImpactData e s = (d, s) := by
  simp [generateFinancialImpactData, h]

/-- C1.  Scoring an event identity a second time returns exactly the
assessment cached by the first call, identical in every field, and leaves
the oracle state untouched: both `generateFinancialImpactData` and
`getFinancialImpactForEarthquake` are idempotent after their first call. -/
theorem scoring_idempotent (e : Earthquake) (os : OracleState)
    (earthquakeId : String) (store : List Earthquake) :
    generateFinancialImpactData e (generateFinancialImpactData e os).2 =
      generateFinancialImpactData e os ∧
    getFinancialImpactForEarthquake earthquakeId store
        (getFinancialImpactForEarthquake earthquakeId store os).2 =
      getFinancialImpactForEarthquake earthquakeId store os := by
  constructor
  · have := generateFinancialImpactData_hit e (generateFinancialImpactData e os).2
      (generateFinancialImpactData e os).1 (generateFinancialImpactData_cached e os)
    simpa using this
  · cases h : lookup os.financialImpactCache earthquakeId with
    | some cached => simp [getFinancialImpactForEarthquake, h]
    | none =>
      cases hf : store.find? (fun q => q.id == earthquakeId) with
      | none => simp [getFinancialImpactForEarthquake, h, hf]
      | some e' =>
        have he' : e'.id = earthquakeId := by
          have := List.find?_some hf
          exact beq_iff_eq.mp this
        have hcache := generateFinancialImpactData_cached e' os
        rw [he'] at hcache
        simp [getFinancialImpactForEarthquake, h, hf, hcache]

/-! ## Access control -/

/-- The exact validity condition `validateApiKey` implements.  Note the
boundary: a subscription is rejected only when `endDate < now`, so a key is
still valid at the very instant `now = endDate`. -/
lemma validateApiKey_valid_iff (apiKeys : List (String × OracleSubscription))
    (now : ℤ) (apiKey : String) :
    (validateApiKey apiKeys now apiKey).valid = true ↔
      ∃ s, lookup apiKeys apiKey = some s ∧ s.active = true ∧
        ¬(s.endDate < now) ∧ 0 < s.remainingRequests := by
  unfold validateApiKey
  cases h : lookup apiKeys apiKey with
  | none => simp [h]
  | some s =>
    dsimp only
    by_cases hact : (!s.active || decide (s.endDate < now)) = true
    · rw [if_pos hact]
      simp only [Bool.or_eq_true, Bool.not_eq_true', decide_eq_true_eq] at hact
      simp only [h, Option.some.injEq]
      constructor
      · intro hfalse; exact absurd hfalse (by simp)
      · rintro ⟨s', hs', hact', hend', _⟩
        cases hs'
        rcases hact with hia | hie
        · rw [hia] at hact'; exact absurd hact' (by simp)
        · exact absurd hie hend'
    · rw [if_neg hact]
      simp only [Bool.or_eq_true, Bool.not_eq_true', decide_eq_true_eq, not_or] at hact
      by_cases hrem : (decide (s.remainingRequests ≤ 0)) = true
      · rw [if_pos hrem]
        simp only [decide_eq_true_eq] at hrem
        simp only [h, Option.some.injEq]
        constructor
        · intro hfalse; exact absurd hfalse (by simp)
        · rintro ⟨s', hs', _, _, hpos⟩
          cases hs'
          omega
      · rw [if_neg hrem]
        simp only [decide_eq_true_eq, not_le] at hrem
        simp only [h, Option.some.injEq]
        constructor
        · intro _
          exact ⟨s, rfl, by simpa using hact.1, hact.2, hrem⟩
        · intro _; trivial

/-- C7 counterexample.  At the exact end instant (`now = endDate`) the code
still reports the key valid, while the claim requires `now` to be strictly
before the end time for validity. -/
theorem validateApiKey_boundary_counterexample :
    (validateApiKey
      [("k", { id := 1, apiKey := "k", subscriber := "s", organizationName := "o",
               contactEmail := "e", startDate := 0, endDate := 1000, active := true,
               remainingRequests := 1, lastRequestDate := none })] 1000 "k").valid = true ∧
    ¬((1000 : ℤ) < 1000) := by
  constructor
  · rfl
  · omega

/-- C7 (amended).  `validateApiKey` reports a key valid exactly when a
subscription exists for it, its `active` flag is set, `now` is not strictly
past its end time (the boundary instant `now = endDate` is still accepted),
and its remaining budget is positive; in every other case it reports
invalid.  The embedding types the check as a pure function of the key table,
mirroring that the source only reads the subscription map. -/
theorem validateApiKey_characterization (apiKeys : List (String × OracleSubscription))
    (now : ℤ) (apiKey : String) :
    (validateApiKey apiKeys now apiKey).valid = true ↔
      ∃ s, lookup apiKeys apiKey = some s ∧ s.active = true ∧
        ¬(s.endDate < now) ∧ 0 < s.remainingRequests :=
  validateApiKey_valid_iff apiKeys now apiKey

/-- A key table holding one key issued with a 30-day duration and a request
budget of 3. -/
def gateKeys3 : List (String × OracleSubscription) :=
  (createApiKey [] 0 "qs_testkey" "0xwallet" "Org" "contact" 30 3).2

/-- C3 counterexample.  Three gated consumes on a budget-3 key return 2, 1,
0; the fourth is rejected, but with the same generic `INVALID_API_KEY`
answer the middleware gives for a completely unknown key — the code has no
distinct QuotaExhausted error for an exhausted budget. -/
theorem quota_exhaustion_error_counterexample :
    (runGate 4 gateKeys3 0 (some "qs_testkey")).1 =
      [Except.ok 2, Except.ok 1, Except.ok 0,
        Except.error ApiErrorCode.invalidApiKey] ∧
    (verifyApiKey [] 0 (some "qs_testkey")).1 =
      Except.error ApiErrorCode.invalidApiKey :=
  ⟨rfl, rfl⟩

/-- C3 (amended).  For a key issued with budget 3, three sequential gated
consumes succeed returning 2, 1, 0 and the fourth is rejected (with the
generic invalid-key error, the rejection being caused by the exhausted
budget); and the gate never drives any remaining budget negative: from any
key table with non-negative budgets, the table after a gated call still has
non-negative budgets. -/
theorem quota_monotonic :
    ((runGate 4 gateKeys3 0 (some "qs_testkey")).1 =
      [Except.ok 2, Except.ok 1, Except.ok 0,
        Except.error ApiErrorCode.invalidApiKey]) ∧
    (∀ (apiKeys : List (String × OracleSubscription)) (now : ℤ) (header : Option String),
      (∀ kv ∈ apiKeys, 0 ≤ kv.2.remainingRequests) →
      ∀ kv ∈ (verifyApiKey apiKeys now header).2, 0 ≤ kv.2.remainingRequests) := by
  refine ⟨rfl, ?inv⟩
  intro apiKeys now header hinv kv hkv
  cases header with
  | none => exact hinv kv hkv
  | some k =>
    unfold verifyApiKey at hkv
    dsimp only at hkv
    by_cases hv : (validateApiKey apiKeys now k).valid = false
    · rw [if_pos hv] at hkv
      exact hinv kv hkv
    · rw [if_neg hv] at hkv
      have hvt : (validateApiKey apiKeys now k).valid = true := by
        cases hb : (validateApiKey apiKeys now k).valid
        · exact absurd hb hv
        · rfl
      rcases (validateApiKey_valid_iff apiKeys now k).mp hvt with ⟨s, hs, _, _, hpos⟩
      have hrec : recordApiRequest apiKeys now k =
          Except.ok ((s.remainingRequests - 1 : ℤ),
            mapSet apiKeys k
              { s with
                remainingRequests := s.remainingRequests - 1
                lastRequestDate := some now }) := by
        simp [recordApiRequest, hs]
      rw [hrec] at hkv
      dsimp only at hkv
      rcases mem_mapSet hkv with hm | hv2
      · exact hinv kv hm
      · rw [hv2]
        dsimp only
        omega

/-- C3 witness: the amended theorem instantiated at the issued budget-3 key
table. -/
theorem quota_monotonic_witness :
    (∀ kv ∈ gateKeys3, 0 ≤ kv.2.remainingRequests) ∧
    (∀ kv ∈ (verifyApiKey gateKeys3 0 (some "qs_testkey")).2,
      0 ≤ kv.2.remainingRequests) :=
  ⟨by decide, quota_monotonic.2 gateKeys3 0 (some "qs_testkey") (by decide)⟩

/-! ## Monotonicity of the risk model -/

lemma calculateMagnitudeImpact_mono : Monotone calculateMagnitudeImpact := by
  intro a b hab
  unfold calculateMagnitudeImpact
  split_ifs
  all_goals try linarith
  all_goals
    first
    | (have hmin0 : (0 : ℚ) ≤ min 30 ((b - 7) * 15) :=
        le_min (by norm_num) (by linarith)
       linarith)
    | exact add_le_add_left (min_le_min (le_refl (30 : ℚ)) (by linarith)) 70

lemma riskLevelOf_rank_mono {s1 s2 : ℤ} (h : s1 ≤ s2) :
    (riskLevelOf s1).rank ≤ (riskLevelOf s2).rank := by
  unfold riskLevelOf
  split_ifs <;> simp_all [RiskLevel.rank] <;> omega

lemma marketImpactScoreOf_mono_mag {m1 m2 : ℚ} (depth latitude longitude : ℚ)
    (h : m1 ≤ m2) :
    marketImpactScoreOf m1 depth latitude longitude ≤
      marketImpactScoreOf m2 depth latitude longitude := by
  unfold marketImpactScoreOf jsRoundR
  refine min_le_min (le_refl 100) ?flo
  apply Int.floor_mono
  have hq := calculateMagnitudeImpact_mono h
  have hr : (calculateMagnitudeImpact m1 : ℝ) ≤ (calculateMagnitudeImpact m2 : ℝ) := by
    exact_mod_cast hq
  linarith

/-- C9.  For fixed depth and location, the magnitude impact and the risk
level derived from the resulting market impact score are non-decreasing in
magnitude (risk levels compared by their position in
LOW < MEDIUM < HIGH < CRITICAL). -/
theorem risk_monotone_in_magnitude (m1 m2 depth latitude longitude : ℚ)
    (h : m1 ≤ m2) :
    calculateMagnitudeImpact m1 ≤ calculateMagnitudeImpact m2 ∧
    (riskLevelOf (marketImpactScoreOf m1 depth latitude longitude)).rank ≤
      (riskLevelOf (marketImpactScoreOf m2 depth latitude longitude)).rank :=
  ⟨calculateMagnitudeImpact_mono h,
    riskLevelOf_rank_mono (marketImpactScoreOf_mono_mag depth latitude longitude h)⟩

/-- C9 witness: the monotonicity theorem at magnitudes 5.3 ≤ 6.7 with depth
10 km at the default location. -/
theorem risk_monotone_in_magnitude_witness :
    (5.3 : ℚ) ≤ 6.7 ∧
    (calculateMagnitudeImpact 5.3 ≤ calculateMagnitudeImpact 6.7 ∧
      (riskLevelOf (marketImpactScoreOf 5.3 10 0 0)).rank ≤
        (riskLevelOf (marketImpactScoreOf 6.7 10 0 0)).rank) :=
  ⟨by norm_num, risk_monotone_in_magnitude 5.3 6.7 10 0 0 (by norm_num)⟩

/-! ## The Tokyo Bay scoring scenario -/

lemma haversineDistance_self (lat lon : ℝ) :
    haversineDistance lat lon lat lon = 0 := by
  unfold haversineDistance deg2rad atan2
  norm_num [Real.sqrt_one, Real.arctan_zero]

lemma isLocationNearRegion_self (lat lon radius : ℚ) (h : (0 : ℚ) ≤ radius) :
    isLocationNearRegion lat lon lat lon radius := by
  unfold isLocationNearRegion
  rw [haversineDistance_self]
  exact_mod_cast h

lemma calculateLocationImpact_tokyo :
    calculateLocationImpact 35.6762 139.6503 = 90 := by
  unfold calculateLocationImpact
  rw [if_pos (isLocationNearRegion_self 35.6762 139.6503 500 (by norm_num))]

lemma calculateMagnitudeImpact_72 : calculateMagnitudeImpact 7.2 = 73 := by
  norm_num [calculateMagnitudeImpact, min_def]

lemma calculateDepthImpact_8 : calculateDepthImpact 8 = 84 := by
  norm_num [calculateDepthImpact, max_def]

lemma marketImpactScoreOf_tokyo :
    marketImpactScoreOf 7.2 8 35.6762 139.6503 = 80 := by
  unfold marketImpactScoreOf jsRoundR
  rw [calculateMagnitudeImpact_72, calculateDepthImpact_8, calculateLocationImpact_tokyo]
  have harg : ((73 : ℚ) : ℝ) * 0.5 + ((84 : ℚ) : ℝ) * 0.2 + (90 : ℝ) * 0.3 + 1/2 = 80.8 := by
    push_cast
    norm_num
  rw [harg]
  have hfl : ⌊(80.8 : ℝ)⌋ = (80 : ℤ) := by
    rw [Int.floor_eq_iff]
    constructor <;> norm_num
  rw [hfl]
  decide

/-- In the uncached case the assessment's score and risk level are exactly
the ones computed by the risk model. -/
lemma generateFinancialImpactData_fields (e : Earthquake) (s : OracleState)
    (h : lookup s.financialImpactCache e.id = none) :
    (generateFinancialImpactData e s).1.marketImpactScore =
      marketImpactScoreOf e.magnitude e.depth e.latitude e.longitude ∧
    (generateFinancialImpactData e s).1.riskLevel =
      riskLevelOf (marketImpactScoreOf e.magnitude e.depth e.latitude e.longitude) := by
  simp [generateFinancialImpactData, h]

/-- The Tokyo Bay event of the specification's scoring scenario. -/
def tokyoEvent : Earthquake :=
  { place := "Tokyo Bay", magnitude := 7.2, depth := 8, latitude := 35.6762,
    longitude := 139.6503, time := 0, flareNetworkId := none, verified := false,
    source := "JMA", url := none, tsunami := false, flareVerified := false,
    id := "eq_tokyo", createdAt := 0 }

/-- A fresh oracle state: empty cache, zeroed randomness stream. -/
def freshOracleState : OracleState :=
  { financialImpactCache := [], rng := fun _ => 0, rngIdx := 0, now := 0 }

/-- C4 counterexample.  For the Tokyo Bay event the code computes
`magnitudeImpact = 70 + min(30, 0.2·15) = 73`, not ≈85.5, so the overall
score is `round(0.5·73 + 0.2·84 + 0.3·90) = round(80.3) = 80`, not 87, and
the risk level is not CRITICAL. -/
theorem tokyo_scenario_counterexample :
    calculateMagnitudeImpact 7.2 = 73 ∧
    ¬(|calculateMagnitudeImpact 7.2 - 85.5| < 1) ∧
    (generateFinancialImpactData tokyoEvent freshOracleState).1.marketImpactScore ≠ 87 ∧
    (generateFinancialImpactData tokyoEvent freshOracleState).1.riskLevel ≠
      RiskLevel.CRITICAL := by
  have hfields := generateFinancialImpactData_fields tokyoEvent freshOracleState rfl
  have hscore : marketImpactScoreOf tokyoEvent.magnitude tokyoEvent.depth
      tokyoEvent.latitude tokyoEvent.longitude = 80 := marketImpactScoreOf_tokyo
  refine ⟨calculateMagnitudeImpact_72, ?far, ?score, ?level⟩
  · rw [calculateMagnitudeImpact_72]
    norm_num
    rw [abs_of_nonneg (by norm_num : (0 : ℚ) ≤ 25 / 2)]
    norm_num
  · rw [hfields.1, hscore]
    decide
  · rw [hfields.2, hscore]
    decide

/-- C4 (amended).  For the event {place: Tokyo Bay, magnitude 7.2, depth 8,
lat 35.6762, lon 139.6503} the risk scoring engine computes
`magnitudeImpact = 73`, `depthImpact = 84`, `locationImpact = 90`,
`marketImpactScore = round(0.5·73 + 0.2·84 + 0.3·90) = round(80.3) = 80`,
and assigns risk level HIGH. -/
theorem tokyo_scenario :
    calculateMagnitudeImpact 7.2 = 73 ∧
    calculateDepthImpact 8 = 84 ∧
    calculateLocationImpact 35.6762 139.6503 = 90 ∧
    marketImpactScoreOf 7.2 8 35.6762 139.6503 = 80 ∧
    (generateFinancialImpactData tokyoEvent freshOracleState).1.marketImpactScore = 80 ∧
    (generateFinancialImpactData tokyoEvent freshOracleState).1.riskLevel =
      RiskLevel.HIGH := by
  have hfields := generateFinancialImpactData_fields tokyoEvent freshOracleState rfl
  refine ⟨calculateMagnitudeImpact_72, calculateDepthImpact_8,
    calculateLocationImpact_tokyo, marketImpactScoreOf_tokyo, ?score, ?level⟩
  · rw [hfields.1]
    exact marketImpactScoreOf_tokyo
  · rw [hfields.2, (show marketImpactScoreOf tokyoEvent.magnitude tokyoEvent.depth
      tokyoEvent.latitude tokyoEvent.longitude = 80 from marketImpactScoreOf_tokyo)]
    decide

/-! ## Ingestion and dedup lemmas -/

lemma processNewEarthquakes_singleton (st : StorageState) (c : InsertEarthquake) :
    processNewEarthquakes st [c] = processOneEarthquake st c := by
  simp [processNewEarthquakes]

lemma isDuplicateOf_iff (e : Earthquake) (c : InsertEarthquake) :
    isDuplicateOf e c = true ↔
      e.place = c.place ∧ |e.magnitude - c.magnitude| < 1/10 ∧
      |e.time - c.time| < 1000 * 60 * 5 := by
  simp [isDuplicateOf, Bool.and_eq_true, decide_eq_true_eq, beq_iff_eq, and_assoc]

lemma window_dup_iff (st : StorageState) (c : InsertEarthquake) :
    (getEarthquakes st { timeRange := "24h", magnitude := "all", region := "global" }).any
      (fun existing => isDuplicateOf existing c) = true ↔
    ∃ e ∈ getEarthquakes st { timeRange := "24h", magnitude := "all", region := "global" },
      e.place = c.place ∧ |e.magnitude - c.magnitude| < 1/10 ∧
      |e.time - c.time| < 1000 * 60 * 5 := by
  rw [List.any_eq_true]
  exact exists_congr (fun e => and_congr_right (fun _ => isDuplicateOf_iff e c))

/-- The event record `createEarthquake` builds for a candidate in state `st`. -/
def newEq (st : StorageState) (c : InsertEarthquake) : Earthquake :=
  { toInsertEarthquake := c, id := st.freshIds st.idCtr, createdAt := st.now }

/-- The alert record `processNewEarthquakes` files for a qualifying
candidate in state `st`. -/
def newAlertOf (st : StorageState) (c : InsertEarthquake) : Alert :=
  { message := if 6 ≤ c.magnitude then "Major Earthquake Warning"
      else "Moderate Earthquake Alert"
    severity := if 6 ≤ c.magnitude then "high" else "medium"
    magnitude := c.magnitude
    location := c.place
    earthquakeId := st.freshIds st.idCtr
    timestamp := st.now
    active := true
    id := st.alertIdCtr }

lemma processOne_duplicate (st : StorageState) (c : InsertEarthquake)
    (hdup : (getEarthquakes st { timeRange := "24h", magnitude := "all", region := "global" }).any
      (fun existing => isDuplicateOf existing c) = true) :
    processOneEarthquake st c = ([], st) := by
  simp [processOneEarthquake, hdup]

lemma processOne_admitted (st : StorageState) (c : InsertEarthquake)
    (hfresh : ∀ q ∈ st.earthquakes, q.id ≠ st.freshIds st.idCtr)
    (hdup : (getEarthquakes st { timeRange := "24h", magnitude := "all", region := "global" }).any
      (fun existing => isDuplicateOf existing c) = false) :
    (processOneEarthquake st c).1 = [newEq st c] ∧
    (processOneEarthquake st c).2.earthquakes =
      st.earthquakes ++
        [if 5 ≤ c.magnitude then { newEq st c with flareVerified := true }
         else newEq st c] ∧
    (processOneEarthquake st c).2.alerts =
      (if 4 ≤ c.magnitude then st.alerts ++ [newAlertOf st c] else st.alerts) := by
  have hfid : ∀ q ∈ st.earthquakes, (q.id == st.freshIds st.idCtr) = false := by
    intro q hq
    exact beq_eq_false_iff_ne.mpr (hfresh q hq)
  have hfindnone : st.earthquakes.find? (fun q => q.id == st.freshIds st.idCtr) = none :=
    List.find?_eq_none.mpr (fun a ha => by simp [hfid a ha])
  have hmap : ∀ (upd : Earthquake),
      st.earthquakes.map (fun q => if q.id = st.freshIds st.idCtr then upd else q) =
        st.earthquakes := by
    intro upd
    have := List.map_congr_left (l := st.earthquakes)
      (f := fun q => if q.id = st.freshIds st.idCtr then upd else q) (g := id)
      (fun a ha => by simp [hfresh a ha])
    simpa using this
  by_cases h5 : (5 : ℚ) ≤ c.magnitude <;> by_cases h4 : (4 : ℚ) ≤ c.magnitude
  · simp [processOneEarthquake, hdup, createEarthquake, createAlert,
      verifyEarthquakeDataStep, newEq, newAlertOf, h4, h5, List.find?_append,
      hfindnone, List.find?, List.map_append, hmap]
  · linarith
  · simp [processOneEarthquake, hdup, createEarthquake, createAlert,
      verifyEarthquakeDataStep, newEq, newAlertOf, h4, h5, List.find?_append,
      hfindnone, List.find?, List.map_append, hmap]
  · simp [processOneEarthquake, hdup, createEarthquake, createAlert,
      verifyEarthquakeDataStep, newEq, newAlertOf, h4, h5, List.find?_append,
      hfindnone, List.find?, List.map_append, hmap]

/-! ## The dedup scenario: stored event A, candidates B and C -/

/-- The scenario's reference instant `T`. -/
def scenarioT : ℤ := 1700000000000

/-- Stored event A: place "X", magnitude 5.0, time `T`. -/
def quakeA : Earthquake :=
  { place := "X", magnitude := 5, depth := 10, latitude := 0, longitude := 0,
    time := scenarioT, flareNetworkId := none, verified := false, source := "USGS",
    url := none, tsunami := false, flareVerified := false, id := "eqA",
    createdAt := scenarioT }

/-- The store holding A, with the clock at `T`. -/
def storeWithA : StorageState :=
  { earthquakes := [quakeA], alerts := [], alertIdCtr := 1, now := scenarioT,
    freshIds := fun n => "eq_" ++ toString n, idCtr := 0 }

/-- Candidate B: place "X", magnitude 5.05, time `T` + 2 min. -/
def candidateB : InsertEarthquake :=
  { place := "X", magnitude := 101/20, depth := 10, latitude := 0, longitude := 0,
    time := scenarioT + 2 * 60 * 1000, flareNetworkId := none, verified := false,
    source := "USGS", url := none, tsunami := false, flareVerified := false }

/-- Candidate C: place "X", magnitude 5.2, time `T`. -/
def candidateC : InsertEarthquake :=
  { place := "X", magnitude := 26/5, depth := 10, latitude := 0, longitude := 0,
    time := scenarioT, flareNetworkId := none, verified := false,
    source := "USGS", url := none, tsunami := false, flareVerified := false }

lemma windowA :
    getEarthquakes storeWithA { timeRange := "24h", magnitude := "all", region := "global" } =
      [quakeA] := by
  norm_num [getEarthquakes, timeFilterOf, applyRegionFilter, sortByTimeDesc,
    insertByTimeDesc, storeWithA, quakeA, scenarioT, List.filter]

lemma fresh_storeWithA :
    ∀ q ∈ storeWithA.earthquakes, q.id ≠ storeWithA.freshIds storeWithA.idCtr := by
  intro q hq
  simp only [storeWithA, quakeA, List.mem_singleton] at hq
  subst hq
  simp only [storeWithA, quakeA]
  decide

lemma candidateB_duplicate :
    (getEarthquakes storeWithA { timeRange := "24h", magnitude := "all", region := "global" }).any
      (fun existing => isDuplicateOf existing candidateB) = true := by
  rw [windowA]
  norm_num [isDuplicateOf, quakeA, candidateB, scenarioT, List.any, abs]

lemma candidateC_not_duplicate :
    (getEarthquakes storeWithA { timeRange := "24h", magnitude := "all", region := "global" }).any
      (fun existing => isDuplicateOf existing candidateC) = false := by
  rw [windowA]
  norm_num [isDuplicateOf, quakeA, candidateC, scenarioT, List.any, abs]

/-- C2.  Ingesting a candidate admits it iff no event already stored in the
current 24-hour window matches it on exact place, magnitude within 0.1 and
time within five minutes; a duplicate leaves the store untouched and admits
nothing, while an admitted candidate is persisted (possibly with the Flare
verification flag set for magnitude ≥ 5.0) and returned.  In particular,
with A (place "X", mag 5.0, t = T) stored, candidate B (place "X", mag 5.05,
t = T+2min) is rejected and candidate C (place "X", mag 5.2, t = T) is
admitted. -/
theorem dedup_policy :
    (∀ (c : InsertEarthquake) (st : StorageState),
      (∀ q ∈ st.earthquakes, q.id ≠ st.freshIds st.idCtr) →
      (((processNewEarthquakes st [c]).1 ≠ [] ↔
        ¬ ∃ e ∈ getEarthquakes st { timeRange := "24h", magnitude := "all", region := "global" },
            e.place = c.place ∧ |e.magnitude - c.magnitude| < 1/10 ∧
            |e.time - c.time| < 1000 * 60 * 5) ∧
      ((processNewEarthquakes st [c]).1 = [] →
        (processNewEarthquakes st [c]).2.earthquakes = st.earthquakes) ∧
      ((processNewEarthquakes st [c]).1 ≠ [] →
        (processNewEarthquakes st [c]).1 = [newEq st c] ∧
        (newEq st c).toInsertEarthquake = c ∧
        (processNewEarthquakes st [c]).2.earthquakes =
          st.earthquakes ++
            [if 5 ≤ c.magnitude then { newEq st c with flareVerified := true }
             else newEq st c]))) ∧
    (processNewEarthquakes storeWithA [candidateB]).1 = [] ∧
    (processNewEarthquakes storeWithA [candidateB]).2.earthquakes = storeWithA.earthquakes ∧
    (processNewEarthquakes storeWithA [candidateC]).1.map
      (fun q => q.toInsertEarthquake) = [candidateC] := by
  refine ⟨?gen, ?bRejected, ?bStore, ?cAdmitted⟩
  case bRejected =>
    rw [processNewEarthquakes_singleton, processOne_duplicate _ _ candidateB_duplicate]
  case bStore =>
    rw [processNewEarthquakes_singleton, processOne_duplicate _ _ candidateB_duplicate]
  case cAdmitted =>
    rw [processNewEarthquakes_singleton,
      (processOne_admitted storeWithA candidateC fresh_storeWithA candidateC_not_duplicate).1]
    rfl
  intro c st hfresh
  rw [processNewEarthquakes_singleton]
  by_cases hdup : (getEarthquakes st { timeRange := "24h", magnitude := "all", region := "global" }).any
      (fun existing => isDuplicateOf existing c) = true
  · rw [processOne_duplicate st c hdup]
    have hex := (window_dup_iff st c).mp hdup
    exact ⟨by simpa using hex, fun _ => rfl, fun hne => absurd rfl hne⟩
  · have hdupf : (getEarthquakes st { timeRange := "24h", magnitude := "all", region := "global" }).any
        (fun existing => isDuplicateOf existing c) = false := by
      cases hb : (getEarthquakes st { timeRange := "24h", magnitude := "all", region := "global" }).any
          (fun existing => isDuplicateOf existing c)
      · rfl
      · exact absurd hb hdup
    obtain ⟨h1, h2, _⟩ := processOne_admitted st c hfresh hdupf
    have hne : (processOneEarthquake st c).1 ≠ [] := by rw [h1]; simp
    refine ⟨⟨fun _ hex => ?noDup, fun _ => hne⟩, fun h0 => absurd h0 hne,
      fun _ => ⟨h1, rfl, h2⟩⟩
    exact absurd ((window_dup_iff st c).mpr hex) (by simp [hdupf])

/-- C2 witness: the general dedup characterization applied to candidate C
against the store holding A (the freshness side condition holds there). -/
theorem dedup_policy_witness :
    (∀ q ∈ storeWithA.earthquakes, q.id ≠ storeWithA.freshIds storeWithA.idCtr) ∧
    ((processNewEarthquakes storeWithA [candidateC]).1 ≠ [] ↔
      ¬ ∃ e ∈ getEarthquakes storeWithA
          { timeRange := "24h", magnitude := "all", region := "global" },
        e.place = candidateC.place ∧ |e.magnitude - candidateC.magnitude| < 1/10 ∧
        |e.time - candidateC.time| < 1000 * 60 * 5) :=
  ⟨fresh_storeWithA, (dedup_policy.1 candidateC storeWithA fresh_storeWithA).1⟩

/-- C6.  For a newly admitted (non-duplicate) candidate, no alert is filed
below magnitude 4.0; for 4.0 ≤ magnitude < 6.0 exactly one alert with
severity "medium" and message "Moderate Earthquake Alert" is appended; for
magnitude ≥ 6.0 exactly one alert with severity "high" and message "Major
Earthquake Warning" is appended.  The alert carries the event's magnitude
and place, references the created event's identity, and is stored with
`active := true`. -/
theorem alert_classification :
    ∀ (c : InsertEarthquake) (st : StorageState),
      (∀ q ∈ st.earthquakes, q.id ≠ st.freshIds st.idCtr) →
      (getEarthquakes st { timeRange := "24h", magnitude := "all", region := "global" }).any
        (fun existing => isDuplicateOf existing c) = false →
      ((c.magnitude < 4 → (processOneEarthquake st c).2.alerts = st.alerts) ∧
       (4 ≤ c.magnitude → c.magnitude < 6 →
        (processOneEarthquake st c).2.alerts = st.alerts ++
          [{ message := "Moderate Earthquake Alert", severity := "medium",
             magnitude := c.magnitude, location := c.place,
             earthquakeId := (newEq st c).id, timestamp := st.now, active := true,
             id := st.alertIdCtr }]) ∧
       (6 ≤ c.magnitude →
        (processOneEarthquake st c).2.alerts = st.alerts ++
          [{ message := "Major Earthquake Warning", severity := "high",
             magnitude := c.magnitude, location := c.place,
             earthquakeId := (newEq st c).id, timestamp := st.now, active := true,
             id := st.alertIdCtr }])) := by
  intro c st hfresh hdup
  obtain ⟨_, _, halerts⟩ := processOne_admitted st c hfresh hdup
  refine ⟨?low, ?medium, ?high⟩
  · intro hlt
    rw [halerts, if_neg (by linarith)]
  · intro h4 h6
    rw [halerts, if_pos h4]
    simp [newAlertOf, newEq, if_neg (by linarith : ¬ (6 : ℚ) ≤ c.magnitude)]
  · intro h6
    rw [halerts, if_pos (by linarith)]
    simp [newAlertOf, newEq, if_pos h6]

/-- C6 witness: the classification applied to candidate C (magnitude 5.2,
a medium "Moderate Earthquake Alert") against the store holding A. -/
theorem alert_classification_witness :
    ((4 : ℚ) ≤ candidateC.magnitude ∧ candidateC.magnitude < 6) ∧
    (processOneEarthquake storeWithA candidateC).2.alerts = storeWithA.alerts ++
      [{ message := "Moderate Earthquake Alert", severity := "medium",
         magnitude := candidateC.magnitude, location := candidateC.place,
         earthquakeId := (newEq storeWithA candidateC).id, timestamp := storeWithA.now,
         active := true, id := storeWithA.alertIdCtr }] :=
  ⟨⟨by norm_num [candidateC], by norm_num [candidateC]⟩,
    (alert_classification candidateC storeWithA fresh_storeWithA
        candidateC_not_duplicate).2.1
      (by norm_num [candidateC]) (by norm_num [candidateC])⟩

/-! ## List index lemmas for the correlation overlay -/

lemma findIdx?_of_first {α : Type} [Inhabited α] (p : α → Bool) :
    ∀ (l : List α) (i s : ℕ), i < l.length →
      p (l.getD i default) = true →
      (∀ j, j < i → p (l.getD j default) = false) →
      l.findIdx? p s = some (s + i)
  | [], i, _, hi, _, _ => by simp at hi
  | a :: t, 0, s, _, hp, _ => by
    rw [List.findIdx?_cons]
    rw [List.getD_cons_zero] at hp
    simp [hp]
  | a :: t, i + 1, s, hi, hp, hmin => by
    rw [List.findIdx?_cons]
    have ha : p a = false := by
      have := hmin 0 (by omega)
      rwa [List.getD_cons_zero] at this
    rw [ha]
    simp only [Bool.false_eq_true, if_false]
    have hrec := findIdx?_of_first p t i (s + 1) (by simpa using hi)
      (by rwa [List.getD_cons_succ] at hp)
      (fun j hj => by
        have := hmin (j + 1) (by omega)
        rwa [List.getD_cons_succ] at this)
    rw [hrec]
    congr 1
    omega

lemma getD_set_self {α : Type} [Inhabited α] (l : List α) (i : ℕ) (a : α)
    (h : i < l.length) : (l.set i a).getD i default = a := by
  simp [List.getD_eq_getElem?_getD, List.getElem?_set, h]

lemma getD_set_ne {α : Type} [Inhabited α] (l : List α) (i j : ℕ) (a : α)
    (h : i ≠ j) : (l.set i a).getD j default = l.getD j default := by
  simp [List.getD_eq_getElem?_getD, List.getElem?_set, h]

/-- The updated sample `applyQuakeImpact` writes at the matching index for a
magnitude ≥ 7.0 event on a USD-based pair: rate scaled by (1 − 0.02), event
metadata attached. -/
def impactedSample (quake : Earthquake) (r : ExchangeRateData) : ExchangeRateData :=
  { r with
    rate := toFixed4 (r.rate * (1 + (-1) * (2/100)))
    earthquake := some { id := quake.id, magnitude := quake.magnitude, place := quake.place } }

/-- The updated next-day sample: 40% of the impact in the same direction. -/
def aftershockSample (r : ExchangeRateData) : ExchangeRateData :=
  { r with rate := toFixed4 (r.rate * (1 + (-1) * (2/100 * (4/10)))) }

lemma applyQuakeImpact_some (formatDay : ℤ → String) (currencyPair : CurrencyPair)
    (result : List ExchangeRateData) (quake : Earthquake) (i : ℕ)
    (hfind : result.findIdx? (fun r => r.date == formatDay quake.time) = some i)
    (hmag : (7 : ℚ) ≤ quake.magnitude) (hbase : currencyPair.base = "USD") :
    applyQuakeImpact formatDay currencyPair result quake =
      (if i + 1 < (result.set i (impactedSample quake (result.getD i default))).length then
        (result.set i (impactedSample quake (result.getD i default))).set (i + 1)
          (aftershockSample
            ((result.set i (impactedSample quake (result.getD i default))).getD
              (i + 1) default))
      else result.set i (impactedSample quake (result.getD i default))) := by
  simp only [applyQuakeImpact, hfind]
  simp [if_pos hmag, hbase, impactedSample, aftershockSample]

/-- C5.  With a USD-based pair and a series containing exactly one sample
whose date equals the day of a magnitude ≥ 7.0 event, the overlay multiplies
that sample's rate by (1 − 0.02) rounded to 4 decimals, multiplies the next
sample's rate (when one exists) by (1 − 0.008) — 40% of the impact in the
same direction — leaves every other sample and every date unchanged, and
preserves the length of the series. -/
theorem correlation_overlay (formatDay : ℤ → String) (currencyPair : CurrencyPair)
    (rates : List ExchangeRateData) (quake : Earthquake) (i : ℕ)
    (hbase : currencyPair.base = "USD")
    (hmag : (7 : ℚ) ≤ quake.magnitude)
    (hi : i < rates.length)
    (hmatch : (rates.getD i default).date = formatDay quake.time)
    (huniq : ∀ j, j < rates.length →
      (rates.getD j default).date = formatDay quake.time → j = i) :
    (enrichExchangeRateDataWithEarthquakes formatDay rates [quake] currencyPair).length
      = rates.length ∧
    ((enrichExchangeRateDataWithEarthquakes formatDay rates [quake] currencyPair).getD
        i default).rate = toFixed4 ((rates.getD i default).rate * (1 - 2/100)) ∧
    ((enrichExchangeRateDataWithEarthquakes formatDay rates [quake] currencyPair).getD
        i default).date = (rates.getD i default).date ∧
    (i + 1 < rates.length →
      ((enrichExchangeRateDataWithEarthquakes formatDay rates [quake] currencyPair).getD
          (i + 1) default).rate =
        toFixed4 ((rates.getD (i + 1) default).rate * (1 - 8/1000)) ∧
      ((enrichExchangeRateDataWithEarthquakes formatDay rates [quake] currencyPair).getD
          (i + 1) default).date = (rates.getD (i + 1) default).date ∧
      ((enrichExchangeRateDataWithEarthquakes formatDay rates [quake] currencyPair).getD
          (i + 1) default).earthquake = (rates.getD (i + 1) default).earthquake) ∧
    (∀ j, j ≠ i → j ≠ i + 1 →
      (enrichExchangeRateDataWithEarthquakes formatDay rates [quake] currencyPair).getD
        j default = rates.getD j default) := by
  have h5 : (5 : ℚ) ≤ quake.magnitude := by linarith
  have henr : enrichExchangeRateDataWithEarthquakes formatDay rates [quake] currencyPair =
      applyQuakeImpact formatDay currencyPair rates quake := by
    simp [enrichExchangeRateDataWithEarthquakes, List.filter_cons, h5]
  have hfind : rates.findIdx? (fun r => r.date == formatDay quake.time) = some i := by
    have := findIdx?_of_first (fun r => r.date == formatDay quake.time) rates i 0 hi
      (by simpa using hmatch)
      (fun j hj => by
        by_cases hd : (rates.getD j default).date = formatDay quake.time
        · exact absurd (huniq j (by omega) hd) (by omega)
        · simp only [beq_eq_false_iff_ne, ne_eq]
          simpa using hd)
    simpa using this
  have hout := applyQuakeImpact_some formatDay currencyPair rates quake i hfind hmag hbase
  rw [henr] at *
  rw [hout]
  have hlen1 : (rates.set i (impactedSample quake (rates.getD i default))).length =
      rates.length := List.length_set rates i _
  by_cases hnext : i + 1 < rates.length
  · rw [if_pos (by rw [hlen1]; exact hnext)]
    have hgn : (rates.set i (impactedSample quake (rates.getD i default))).getD (i + 1) default =
        rates.getD (i + 1) default := getD_set_ne rates i (i + 1) _ (by omega)
    rw [hgn]
    refine ⟨?_, ?_, ?_, ?_, ?_⟩
    · rw [List.length_set, List.length_set]
    · rw [getD_set_ne _ (i + 1) i _ (by omega), getD_set_self _ _ _ hi]
      simp only [impactedSample]
      congr 1
      ring
    · rw [getD_set_ne _ (i + 1) i _ (by omega), getD_set_self _ _ _ hi]
      simp [impactedSample]
    · intro _
      rw [getD_set_self _ _ _ (by rw [hlen1]; exact hnext)]
      refine ⟨?_, ?_, ?_⟩
      · simp only [aftershockSample]
        congr 1
        ring
      · simp [aftershockSample]
      · simp [aftershockSample]
    · intro j hji hji1
      rw [getD_set_ne _ (i + 1) j _ (fun h => hji1 h.symm),
        getD_set_ne _ i j _ (fun h => hji h.symm)]
  · rw [if_neg (by rw [hlen1]; exact hnext)]
    refine ⟨?_, ?_, ?_, ?_, ?_⟩
    · exact hlen1
    · rw [getD_set_self _ _ _ hi]
      simp only [impactedSample]
      congr 1
      ring
    · rw [getD_set_self _ _ _ hi]
      simp [impactedSample]
    · intro hcontra
      exact absurd hcontra hnext
    · intro j hji _
      exact getD_set_ne _ i j _ (fun h => hji h.symm)

/-- The USD/SGD pair of the correlation scenario. -/
def pairUSD : CurrencyPair := { base := "USD", quote := "SGD", name := "USD/SGD" }

/-- A three-day USD/SGD series (rates 1.35, 1.36, 1.34). -/
def scenarioRates : List ExchangeRateData :=
  [{ date := "2024-01-01", rate := 27/20, earthquake := none },
   { date := "2024-01-02", rate := 34/25, earthquake := none },
   { date := "2024-01-03", rate := 67/50, earthquake := none }]

/-- A magnitude-7.5 event dated (via `scenarioDay`) on the second sample. -/
def quake75 : Earthquake :=
  { place := "Ring of Fire", magnitude := 15/2, depth := 10, latitude := 0,
    longitude := 0, time := 0, flareNetworkId := none, verified := false,
    source := "USGS", url := none, tsunami := false, flareVerified := false,
    id := "q75", createdAt := 0 }

/-- The day-rendering of the correlation scenario: every instant falls on
the second sample's date. -/
def scenarioDay : ℤ → String := fun _ => "2024-01-02"

/-- C5 witness: the overlay theorem at the concrete USD/SGD series and the
magnitude-7.5 event (matching index 1). -/
theorem correlation_overlay_witness :
    (7 : ℚ) ≤ quake75.magnitude ∧
    ((enrichExchangeRateDataWithEarthquakes scenarioDay scenarioRates [quake75] pairUSD).getD
        1 default).rate = toFixed4 ((scenarioRates.getD 1 default).rate * (1 - 2/100)) ∧
    ((enrichExchangeRateDataWithEarthquakes scenarioDay scenarioRates [quake75] pairUSD).getD
        2 default).rate = toFixed4 ((scenarioRates.getD 2 default).rate * (1 - 8/1000)) ∧
    (enrichExchangeRateDataWithEarthquakes scenarioDay scenarioRates [quake75] pairUSD).getD
        0 default = scenarioRates.getD 0 default := by
  have h := correlation_overlay scenarioDay pairUSD scenarioRates quake75 1 rfl
    (by norm_num [quake75]) (by norm_num [scenarioRates]) rfl
    (by
      intro j hj hdate
      simp only [scenarioRates, List.length_cons, List.length_nil] at hj
      interval_cases j
      · exact absurd hdate (by decide)
      · rfl
      · exact absurd hdate (by decide))
  exact ⟨by norm_num [quake75], h.2.1,
    (h.2.2.2.1 (by norm_num [scenarioRates])).1,
    h.2.2.2.2 0 (by omega) (by omega)⟩

/-! ## Raw feed parsing behavior -/

lemma parseAllFeatures_none {features : List RawFeature}
    (h : ∃ f ∈ features, parseFeature f = none) : parseAllFeatures features = none := by
  induction features with
  | nil => simp at h
  | cons f t ih =>
    rcases h with ⟨g, hg, hgn⟩
    rcases List.mem_cons.mp hg with rfl | hgt
    · simp [parseAllFeatures, hgn]
    · unfold parseAllFeatures
      rw [ih ⟨g, hgt, hgn⟩]
      cases parseFeature f <;> rfl

lemma parseAllFeatures_all_some {features : List RawFeature}
    (h : ∀ f ∈ features, (parseFeature f).isSome) :
    parseAllFeatures features = some (features.filterMap parseFeature) := by
  induction features with
  | nil => rfl
  | cons f t ih =>
    have hf := h f (by simp)
    cases hpf : parseFeature f with
    | none => rw [hpf] at hf; simp at hf
    | some e =>
      unfold parseAllFeatures
      rw [hpf, ih (fun g hg => h g (by simp [hg]))]
      simp [List.filterMap_cons, hpf]

/-- A well-formed raw feature. -/
def goodFeature : RawFeature :=
  { properties := some { place := "Northern California", mag := 7/2, time := 0, url := none, tsunami := 0 }
    geometry := some { coordinates := (-121, 38, 10) }
    id := some "nc1" }

/-- Another well-formed raw feature. -/
def goodFeature2 : RawFeature :=
  { properties := some { place := "Southern Alaska", mag := 21/5, time := 0, url := none, tsunami := 0 }
    geometry := some { coordinates := (-150, 61, 15) }
    id := some "ak1" }

/-- A malformed raw feature: its `geometry` (hence its coordinates) is
missing, so the destructuring in `parseEarthquakeData` throws on it. -/
def malformedFeature : RawFeature :=
  { properties := some { place := "Offshore", mag := 5, time := 0, url := none, tsunami := 0 }
    geometry := none
    id := some "x1" }

/-- C8 counterexample.  A batch holding two well-formed records and one
malformed record parses to the empty list: the malformed record is fatal to
the whole batch, and the well-formed records are not parsed, contradicting
the claimed per-record skip. -/
theorem parse_malformed_counterexample :
    (parseFeature goodFeature).isSome = true ∧
    (parseFeature goodFeature2).isSome = true ∧
    parseEarthquakeData [goodFeature, malformedFeature, goodFeature2] = [] :=
  ⟨rfl, rfl, rfl⟩

/-- C8 (amended).  A malformed candidate record (one whose `properties` or
`geometry`/coordinates member is missing) is recovered at batch level, not
per record: the whole `map` runs inside one `try`/`catch`, so if any record
of the batch is malformed `parseEarthquakeData` returns the empty list (the
error is logged once) and no record of the batch is parsed; a batch with no
malformed records parses completely. -/
theorem parse_batch_fatal (features : List RawFeature) :
    ((∃ f ∈ features, parseFeature f = none) → parseEarthquakeData features = []) ∧
    ((∀ f ∈ features, (parseFeature f).isSome) →
      parseEarthquakeData features = features.filterMap parseFeature) := by
  constructor
  · intro h
    unfold parseEarthquakeData
    rw [parseAllFeatures_none h]
  · intro h
    unfold parseEarthquakeData
    rw [parseAllFeatures_all_some h]

/-- C8 witness: the batch-fatality theorem at the concrete three-record
batch. -/
theorem parse_batch_fatal_witness :
    (∃ f ∈ [goodFeature, malformedFeature, goodFeature2], parseFeature f = none) ∧
    parseEarthquakeData [goodFeature, malformedFeature, goodFeature2] = [] :=
  ⟨⟨malformedFeature, by simp, rfl⟩,
    (parse_batch_fatal [goodFeature, malformedFeature, goodFeature2]).1
      ⟨malformedFeature, by simp, rfl⟩⟩

/-! ## The 24-hour cutoff of the bulk financial-impact query -/

lemma mem_insertByTimeDesc {a b : Earthquake} {l : List Earthquake} :
    b ∈ insertByTimeDesc a l ↔ b = a ∨ b ∈ l := by
  induction l with
  | nil => simp [insertByTimeDesc]
  | cons c t ih =>
    unfold insertByTimeDesc
    split_ifs
    · simp [List.mem_cons]
    · rw [List.mem_cons, ih, List.mem_cons]
      tauto

lemma mem_sortByTimeDesc {a : Earthquake} {l : List Earthquake} :
    a ∈ sortByTimeDesc l ↔ a ∈ l := by
  induction l with
  | nil => exact Iff.rfl
  | cons b t ih => simp [sortByTimeDesc, mem_insertByTimeDesc, ih]

lemma mapWithFinancialImpact_fst (os : OracleState) (l : List Earthquake) :
    (mapWithFinancialImpact os l).1.map Prod.fst = l := by
  induction l generalizing os with
  | nil => rfl
  | cons q rest ih => simp [mapWithFinancialImpact, ih]

lemma getEarthquakes_custom_mem (st : StorageState) (q : Earthquake) :
    q ∈ getEarthquakes st { timeRange := "custom", magnitude := "all", region := "global" } ↔
      q ∈ st.earthquakes ∧ st.now - q.time ≤ 24 * 60 * 60 * 1000 := by
  simp [getEarthquakes, timeFilterOf, applyRegionFilter, mem_sortByTimeDesc,
    List.mem_filter]

/-- C10.  The bulk query `getEarthquakesWithFinancialImpact(startTime,
endTime)` returns exactly the stored earthquakes that are both inside the
store's default 24-hour window (because it queries with `timeRange:
'custom'`, which `getEarthquakes` treats as the 24-hour default) and inside
the requested `[startTime, endTime]` range — so stored events older than 24
hours are silently excluded no matter how wide the requested range is. -/
theorem bulk_query_24h_window (startTime endTime : ℤ) (st : StorageState)
    (os : OracleState) (q : Earthquake) :
    q ∈ (getEarthquakesWithFinancialImpact startTime endTime st os).1.map Prod.fst ↔
      (q ∈ st.earthquakes ∧ st.now - q.time ≤ 24 * 60 * 60 * 1000 ∧
        startTime ≤ q.time ∧ q.time ≤ endTime) := by
  unfold getEarthquakesWithFinancialImpact
  rw [mapWithFinancialImpact_fst, List.mem_filter, getEarthquakes_custom_mem]
  simp [and_assoc]

end QuakeSiren
